import Mathlib

/-!
Verification of the landmark-driven placement and alpha-compositing engine of
the virtual-fitting backend (`src/backend/virtual_fitting.py`, class
`VirtualFitter`).

Modelling conventions:
* Raster images (numpy `ndarray`s of dtype uint8) are embedded as `Img`: a
  width, a height, a channel count, and a total pixel function
  `pix : column → row → channel → byte value`.  Byte values are natural
  numbers; the uint8 cast that numpy performs when a float array is stored
  into a uint8 array truncates toward zero, which on the nonnegative values
  produced by the blend is `Int.floor`.
* Python float arithmetic is embedded as exact rational arithmetic (`ℚ`);
  the float literals of the source (`0.5`, `0.15`, ...) become the exact
  rationals they denote in the source text.  `np.arctan`/`np.degrees` are
  embedded over `ℝ` via `Real.arctan`.
* `cv2.resize` / `cv2.warpAffine` are external library collaborators: the
  compositor is embedded on the already resized (and, when rotation is
  requested, already rotated) accessory bitmap, exactly as the code from
  line 653 on operates on `resized_accessory`.  `cv2.imread` is embedded as
  an abstract `Storage` collaborator whose `decode` may fail (imread
  returning `None`).  `cv2.rectangle` with positive thickness is embedded
  as the axis-aligned band of the requested width along the rectangle
  outline (the exact OpenCV rasterization of thick borders is a library
  detail); with thickness `-1` it is the inclusive filled box.
* Python dict lookups with `.get(key, default)` on the landmark feature
  dictionaries are embedded as `Option`-valued record fields (an absent
  feature dictionary and an absent sub-key are observationally identical in
  the source: both make the guarding truthiness test fail).
* Exceptions are embedded as `Except`; a function that cannot raise is
  total.
-/

namespace VirtualFitting

/-- Truncation toward zero on rationals: the semantics of Python `int()`
applied to a float. -/
def ratTrunc (q : ℚ) : ℤ := if 0 ≤ q then ⌊q⌋ else ⌈q⌉

/-- An in-memory raster bitmap: `pix col row channel` is the stored byte.
Channels are in OpenCV order B,G,R,A.  `channels` records `shape[2]`. -/
structure Img where
  w : ℕ
  h : ℕ
  channels : ℕ
  pix : ℕ → ℕ → ℕ → ℕ

/-- One blended output byte of `_place_accessory` (line 678):
`(1.0 - accessory_alpha) * roi[:, :, c] + accessory_alpha * resized[... , c]`
with `accessory_alpha = alpha_byte / 255.0`, stored back into a uint8 array
(truncating cast). -/
def blendChannel (alphaByte baseByte accByte : ℕ) : ℕ :=
  (⌊(1 - (alphaByte : ℚ) / 255) * baseByte + ((alphaByte : ℚ) / 255) * accByte⌋).toNat

/-- Raw horizontal top-left offset, line 654: `int(x - width // 2)`
(`//` on Python floats is `floor` of the quotient). -/
def rawXOffset (x width : ℚ) : ℤ := ratTrunc (x - (⌊width / 2⌋ : ℤ))

/-- Raw vertical top-left offset, line 655: `int(y - height // 2)`. -/
def rawYOffset (y height : ℚ) : ℤ := ratTrunc (y - (⌊height / 2⌋ : ℤ))

/-- The out-of-bounds test of `_place_accessory`, lines 658-660. -/
def outOfBounds (base resized : Img) (x y width height : ℚ) : Bool :=
  decide (rawXOffset x width < 0) || decide (rawYOffset y height < 0) ||
  decide ((base.w : ℤ) < rawXOffset x width + resized.w) ||
  decide ((base.h : ℤ) < rawYOffset y height + resized.h)

/-- Horizontal offset after the clamp of line 663:
`x_offset = max(0, min(result.shape[1] - resized_accessory.shape[1], x_offset))`,
applied only when the out-of-bounds test fired. -/
def xOffset (base resized : Img) (x y width height : ℚ) : ℤ :=
  if outOfBounds base resized x y width height
  then max 0 (min ((base.w : ℤ) - resized.w) (rawXOffset x width))
  else rawXOffset x width

/-- Vertical offset after the clamp of line 664. -/
def yOffset (base resized : Img) (x y width height : ℚ) : ℤ :=
  if outOfBounds base resized x y width height
  then max 0 (min ((base.h : ℤ) - resized.h) (rawYOffset y height))
  else rawYOffset y height

/-- Width of the region of interest, line 667:
`roi_width = min(resized_accessory.shape[1], result.shape[1] - x_offset)`. -/
def roiWidth (base resized : Img) (x y width height : ℚ) : ℤ :=
  min (resized.w : ℤ) ((base.w : ℤ) - xOffset base resized x y width height)

/-- Height of the region of interest, line 668. -/
def roiHeight (base resized : Img) (x y width height : ℚ) : ℤ :=
  min (resized.h : ℤ) ((base.h : ℤ) - yOffset base resized x y width height)

/-- Membership of a base-image pixel in the blended region
`[x_offset, x_offset + roi_width) × [y_offset, y_offset + roi_height)`. -/
def inROI (base resized : Img) (x y width height : ℚ) (px py : ℕ) : Bool :=
  decide (xOffset base resized x y width height ≤ (px : ℤ)) &&
  decide ((px : ℤ) < xOffset base resized x y width height + roiWidth base resized x y width height) &&
  decide (yOffset base resized x y width height ≤ (py : ℤ)) &&
  decide ((py : ℤ) < yOffset base resized x y width height + roiHeight base resized x y width height)

/-- The compositing core of `_place_accessory` (lines 653-683), acting on the
already resized/rotated accessory bitmap (`resized_accessory`): compute the
clamped top-left offset and the region of interest, then alpha-blend the
RGB channels of the region, leaving every other byte of the copied base
untouched.  The alpha byte of the accessory at region position
`(px - x_offset, py - y_offset)` drives the blend (line 674); channel 3 of
the base is never written (the loop of line 677 runs `c in range(3)`). -/
def placeAccessoryResized (base resized : Img) (x y width height : ℚ) : Img :=
  { w := base.w, h := base.h, channels := base.channels,
    pix := fun px py c =>
      if inROI base resized x y width height px py && decide (c < 3) then
        blendChannel
          (resized.pix ((px : ℤ) - xOffset base resized x y width height).toNat
                       ((py : ℤ) - yOffset base resized x y width height).toNat 3)
          (base.pix px py c)
          (resized.pix ((px : ℤ) - xOffset base resized x y width height).toNat
                       ((py : ℤ) - yOffset base resized x y width height).toNat c)
      else base.pix px py c }

/-- A landmark point as stored in the feature dictionaries built by
`avatar_generator.py`: pixel coordinates plus, for pose landmarks, a
visibility confidence (always present on pose points, lines 247-252 of
`avatar_generator.py`).  The relative depth `z` is never read by the
placement code and is omitted; face-derived points never have their
`visibility` read. -/
structure LmPoint where
  x : ℚ
  y : ℚ
  visibility : ℚ

/-- The pose feature dictionary (`landmarks['pose']['features']`).  An absent
feature dictionary and an absent sub-key both embed as `none` (both make the
source's truthiness guards fail). -/
structure PoseFeatures where
  shoulderLeft : Option LmPoint
  shoulderRight : Option LmPoint
  hipLeft : Option LmPoint
  hipRight : Option LmPoint
  wristLeft : Option LmPoint
  wristRight : Option LmPoint
  neck : Option LmPoint

/-- The face feature dictionary (`landmarks['face']['features']`): the two
eye centers consulted by `_get_glasses_placement` (line 441 requires the
`center` sub-key of each eye), and the face-oval point sequence scanned by
`_get_hat_placement`. -/
structure FaceFeatures where
  leftEyeCenter : Option LmPoint
  rightEyeCenter : Option LmPoint
  faceOval : List LmPoint

/-- The pose entry of the combined landmark dictionary. -/
structure PoseData where
  features : PoseFeatures

/-- The face entry of the combined landmark dictionary. -/
structure FaceData where
  features : FaceFeatures

/-- The combined landmark dictionary handed to `apply_accessory`
(`{'face': ..., 'pose': ...}`); either entry may be `None`. -/
structure Landmarks where
  face : Option FaceData
  pose : Option PoseData

/-- A computed placement: center coordinates, target size, and rotation in
degrees.  Coordinates and sizes are rationals (Python floats); the rotation
involves `arctan` and lives in `ℝ`. -/
structure Placement where
  x : ℚ
  y : ℚ
  width : ℚ
  height : ℚ
  rotation : ℝ

/-- Rotation computed by `_get_clothing_placement` lines 375-381 and
`_get_glasses_placement` lines 459-465: `0` when `dx == 0`, else
`np.degrees(np.arctan(dy / dx))`. -/
noncomputable def degreesOfArctanSlope (dy dx : ℚ) : ℝ :=
  if dx = 0 then 0 else Real.arctan ((dy : ℝ) / (dx : ℝ)) * 180 / Real.pi

/-- The placement-surface names accepted by `_get_default_placement`. -/
inductive PositionType
  | head
  | face
  | neck
  | torso
  | wrist
  | center

/-- `_get_default_placement` (lines 544-605): fixed fractions of the image
dimensions per placement surface.  `w // 2` and `h // 2` are Python integer
divisions of the integer image shape. -/
def getDefaultPlacement (w h : ℕ) (positionType : PositionType) : Placement :=
  match positionType with
  | PositionType.head =>
      { x := ((w / 2 : ℕ) : ℚ), y := (h : ℚ) * (15/100), width := (w : ℚ) * (5/10),
        height := (h : ℚ) * (2/10), rotation := 0 }
  | PositionType.face =>
      { x := ((w / 2 : ℕ) : ℚ), y := (h : ℚ) * (25/100), width := (w : ℚ) * (4/10),
        height := (h : ℚ) * (1/10), rotation := 0 }
  | PositionType.neck =>
      { x := ((w / 2 : ℕ) : ℚ), y := (h : ℚ) * (35/100), width := (w : ℚ) * (3/10),
        height := (h : ℚ) * (1/10), rotation := 0 }
  | PositionType.torso =>
      { x := ((w / 2 : ℕ) : ℚ), y := (h : ℚ) * (5/10), width := (w : ℚ) * (7/10),
        height := (h : ℚ) * (4/10), rotation := 0 }
  | PositionType.wrist =>
      { x := (w : ℚ) * (7/10), y := (h : ℚ) * (6/10), width := (w : ℚ) * (15/100),
        height := (w : ℚ) * (15/100), rotation := 0 }
  | PositionType.center =>
      { x := ((w / 2 : ℕ) : ℚ), y := ((h / 2 : ℕ) : ℚ), width := (w : ℚ) * (5/10),
        height := (h : ℚ) * (3/10), rotation := 0 }

/-- `_get_clothing_placement` (lines 325-389).  Requires both shoulders
(line 349).  With both hips present the center y is refined to the torso
midpoint (line 359) and the height is `max((hip_center_y - center_y) * 2,
h * 0.3)` computed from that refined center (lines 371-372); without hips
the center drops by `h * 0.1` and the height stays `h * 0.5`. -/
noncomputable def getClothingPlacement (w h : ℕ) (f : PoseFeatures) : Option Placement :=
  match f.shoulderLeft, f.shoulderRight with
  | some ls, some rs =>
    let centerX := (ls.x + rs.x) / 2
    let shoulderCenterY := (ls.y + rs.y) / 2
    let width := |rs.x - ls.x| * 2
    let rot := degreesOfArctanSlope (rs.y - ls.y) (rs.x - ls.x)
    match f.hipLeft, f.hipRight with
    | some lh, some rh =>
      let hipCenterY := (lh.y + rh.y) / 2
      let centerY := (shoulderCenterY + hipCenterY) / 2
      some { x := centerX, y := centerY, width := width,
             height := max ((hipCenterY - centerY) * 2) ((h : ℚ) * (3/10)),
             rotation := rot }
    | _, _ =>
      some { x := centerX, y := shoulderCenterY + (h : ℚ) * (1/10), width := width,
             height := (h : ℚ) * (5/10), rotation := rot }
  | _, _ => none

/-- `_get_jewelry_placement` (lines 391-429): neck-based placement when the
neck feature exists, otherwise a shoulder-derived approximation, otherwise
no landmark-derived placement. -/
def getJewelryPlacement (w h : ℕ) (f : PoseFeatures) : Option Placement :=
  match f.neck with
  | some nk =>
      some { x := nk.x, y := nk.y, width := (w : ℚ) * (2/10), height := (h : ℚ) * (1/10),
             rotation := 0 }
  | none =>
    match f.shoulderLeft, f.shoulderRight with
    | some ls, some rs =>
      some { x := (ls.x + rs.x) / 2, y := (ls.y + rs.y) / 2 - (h : ℚ) * (5/100),
             width := |rs.x - ls.x| * (6/10), height := |rs.x - ls.x| * (3/10),
             rotation := 0 }
    | _, _ => none

/-- `_get_glasses_placement` (lines 431-473): requires both eye centers. -/
noncomputable def getGlassesPlacement (w h : ℕ) (f : FaceFeatures) : Option Placement :=
  match f.leftEyeCenter, f.rightEyeCenter with
  | some lc, some rc =>
    let width := |rc.x - lc.x| * (22/10)
    some { x := (lc.x + rc.x) / 2, y := (lc.y + rc.y) / 2, width := width,
           height := width * (4/10),
           rotation := degreesOfArctanSlope (rc.y - lc.y) (rc.x - lc.x) }
  | _, _ => none

/-- The linear scan of `_get_hat_placement` lines 489-497: topmost (first
strict minimum of y), leftmost (first strict minimum of x), rightmost (first
strict maximum of x) of the face-oval points. -/
def scanFaceOval (pts : List LmPoint) :
    Option LmPoint × Option LmPoint × Option LmPoint :=
  pts.foldl
    (fun acc p =>
      let top := match acc.1 with
        | none => some p
        | some t => if p.y < t.y then some p else some t
      let lft := match acc.2.1 with
        | none => some p
        | some l => if p.x < l.x then some p else some l
      let rgt := match acc.2.2 with
        | none => some p
        | some r => if r.x < p.x then some p else some r
      (top, lft, rgt))
    (none, none, none)

/-- `_get_hat_placement` (lines 475-519): scan the face oval; when its three
extrema exist, hat width is 1.5 times the face width, centered between the
side extrema, raised above the topmost point. -/
def getHatPlacement (w h : ℕ) (f : FaceFeatures) : Option Placement :=
  match scanFaceOval f.faceOval with
  | (some top, some lft, some rgt) =>
    let width := |rgt.x - lft.x| * (15/10)
    some { x := (lft.x + rgt.x) / 2, y := top.y - width * (2/10), width := width,
           height := width * (6/10), rotation := 0 }
  | _ => none

/-- `_get_watch_placement` (lines 521-542): requires the left wrist with
visibility above 0.5; the watch is a square of a tenth of the image width. -/
def getWatchPlacement (w h : ℕ) (f : PoseFeatures) : Option Placement :=
  match f.wristLeft with
  | some lw =>
      if 1/2 < lw.visibility then
        some { x := lw.x, y := lw.y, width := (w : ℚ) * (1/10),
               height := (w : ℚ) * (1/10), rotation := 0 }
      else none
  | none => none

/-- Placement selection of `_apply_clothing` (lines 174-180): landmark-derived
placement when a pose entry exists and yields one, else the `torso` default. -/
noncomputable def applyClothingPlacement (w h : ℕ) (lm : Option Landmarks) : Placement :=
  match lm with
  | some l =>
    match l.pose with
    | some pd =>
      match getClothingPlacement w h pd.features with
      | some p => p
      | none => getDefaultPlacement w h PositionType.torso
    | none => getDefaultPlacement w h PositionType.torso
  | none => getDefaultPlacement w h PositionType.torso

/-- Placement selection of `_apply_jewelry` (lines 201-208). -/
def applyJewelryPlacement (w h : ℕ) (lm : Option Landmarks) : Placement :=
  match lm with
  | some l =>
    match l.pose with
    | some pd =>
      match getJewelryPlacement w h pd.features with
      | some p => p
      | none => getDefaultPlacement w h PositionType.neck
    | none => getDefaultPlacement w h PositionType.neck
  | none => getDefaultPlacement w h PositionType.neck

/-- Placement selection of `_apply_glasses` (lines 229-235). -/
noncomputable def applyGlassesPlacement (w h : ℕ) (lm : Option Landmarks) : Placement :=
  match lm with
  | some l =>
    match l.face with
    | some fd =>
      match getGlassesPlacement w h fd.features with
      | some p => p
      | none => getDefaultPlacement w h PositionType.face
    | none => getDefaultPlacement w h PositionType.face
  | none => getDefaultPlacement w h PositionType.face

/-- Placement selection of `_apply_hat` (lines 256-262). -/
def applyHatPlacement (w h : ℕ) (lm : Option Landmarks) : Placement :=
  match lm with
  | some l =>
    match l.face with
    | some fd =>
      match getHatPlacement w h fd.features with
      | some p => p
      | none => getDefaultPlacement w h PositionType.head
    | none => getDefaultPlacement w h PositionType.head
  | none => getDefaultPlacement w h PositionType.head

/-- Placement selection of `_apply_watch` (lines 283-289). -/
def applyWatchPlacement (w h : ℕ) (lm : Option Landmarks) : Placement :=
  match lm with
  | some l =>
    match l.pose with
    | some pd =>
      match getWatchPlacement w h pd.features with
      | some p => p
      | none => getDefaultPlacement w h PositionType.wrist
    | none => getDefaultPlacement w h PositionType.wrist
  | none => getDefaultPlacement w h PositionType.wrist

/-- Placement selection of `_apply_generic_accessory` (line 310): always the
`center` default. -/
def applyGenericPlacement (w h : ℕ) : Placement :=
  getDefaultPlacement w h PositionType.center

/-- The condition under which the watch rule of `_get_watch_placement` is
inapplicable: no landmark dictionary, no pose entry, no left wrist, or a
left wrist whose visibility is not above 0.5. -/
def watchLandmarksMissing : Option Landmarks → Bool
  | none => true
  | some l =>
    match l.pose with
    | none => true
    | some pd =>
      match pd.features.wristLeft with
      | none => true
      | some lw => decide (lw.visibility ≤ 1/2)

/-- The condition under which the clothing rule of `_get_clothing_placement`
is inapplicable: no landmark dictionary, no pose entry, or a missing
shoulder (line 349). -/
def clothingLandmarksMissing : Option Landmarks → Bool
  | none => true
  | some l =>
    match l.pose with
    | none => true
    | some pd =>
      match pd.features.shoulderLeft, pd.features.shoulderRight with
      | some _, some _ => false
      | _, _ => true

/-- The condition under which the jewelry rule of `_get_jewelry_placement` is
inapplicable: no neck feature and not both shoulders. -/
def jewelryLandmarksMissing : Option Landmarks → Bool
  | none => true
  | some l =>
    match l.pose with
    | none => true
    | some pd =>
      match pd.features.neck with
      | some _ => false
      | none =>
        match pd.features.shoulderLeft, pd.features.shoulderRight with
        | some _, some _ => false
        | _, _ => true

/-- The condition under which the glasses rule of `_get_glasses_placement` is
inapplicable: no landmark dictionary, no face entry, or a missing eye
center (line 441). -/
def glassesLandmarksMissing : Option Landmarks → Bool
  | none => true
  | some l =>
    match l.face with
    | none => true
    | some fd =>
      match fd.features.leftEyeCenter, fd.features.rightEyeCenter with
      | some _, some _ => false
      | _, _ => true

/-- The condition under which the hat rule of `_get_hat_placement` is
inapplicable: no landmark dictionary, no face entry, or an empty face-oval
sequence (the scan of lines 489-497 finds no extrema). -/
def hatLandmarksMissing : Option Landmarks → Bool
  | none => true
  | some l =>
    match l.face with
    | none => true
    | some fd =>
      match fd.features.faceOval with
      | [] => true
      | _ :: _ => false

/-- Accessory source paths; the cache of `VirtualFitter` is keyed by them.
Path strings are embedded as an abstract countable identifier space. -/
abbrev AccessoryPath := ℕ

/-- The storage collaborator behind `os.path.exists` / `cv2.imread`:
`fileExists` tells whether the path exists, `decode` is the imread result
(`none` embeds imread returning `None` on undecodable data). -/
structure Storage where
  fileExists : AccessoryPath → Bool
  decode : AccessoryPath → Option Img

/-- An accessory reference as accepted by `_get_accessory_image`: a bare
numpy array, a dict carrying a `path`, a dict carrying an `image`, or
anything else. -/
inductive AccessoryRef
  | array (img : Img)
  | pathRef (p : AccessoryPath)
  | imageRef (img : Img)
  | malformed

/-- The alpha-normalization step of `_get_accessory_image` lines 128-131:
a 3-channel image gets a fully opaque alpha channel appended. -/
def ensureAlpha (img : Img) : Img :=
  if img.channels = 3 then
    { w := img.w, h := img.h, channels := 4,
      pix := fun px py c => if c = 3 then 255 else img.pix px py c }
  else img

/-- `_create_placeholder_accessory` (lines 135-156) with its default size
`(100, 100)`: a transparent canvas, a filled semi-transparent magenta
(BGR 255,0,255, alpha 128) rectangle from `(10, 10)` to `(sw-10, sh-10)`,
then a thickness-2 white (alpha 200) border drawn along that rectangle's
outline.  The filled `cv2.rectangle` covers the corner points inclusively;
the thickness-2 border is embedded as the two-pixel band between the boxes
`[9, sw-9] × [9, sh-9]` and `[11, sw-11] × [11, sh-11]`. -/
def createPlaceholderAccessory (sw sh : ℕ) : Img :=
  { w := sw, h := sh, channels := 4,
    pix := fun px py c =>
      if (9 ≤ px ∧ px ≤ sw - 9 ∧ 9 ≤ py ∧ py ≤ sh - 9) ∧
         ¬(11 ≤ px ∧ px ≤ sw - 11 ∧ 11 ≤ py ∧ py ≤ sh - 11) then
        if c = 3 then 200 else 255
      else if 10 ≤ px ∧ px ≤ sw - 10 ∧ 10 ≤ py ∧ py ≤ sh - 10 then
        if c = 3 then 128 else if c = 1 then 0 else 255
      else 0 }

/-- The outcome of one `_get_accessory_image` call: the returned image (or
the exception raised when `cv2.imread` yields `None` and line 128 then
dereferences `None.shape`), the accessory cache after the call, and how many
`cv2.imread` decodes were performed. -/
structure ResolveOut where
  result : Except Unit Img
  cacheAfter : AccessoryPath → Option Img
  decodes : ℕ

/-- `_get_accessory_image` (lines 93-133).  A cached entry is returned as
stored (the early return of line 112 skips the alpha normalization).  Note
that no branch ever writes to the cache: the function returns `cache`
unchanged in every case, exactly as the source never assigns to
`self.accessory_cache`. -/
def getAccessoryImage (st : Storage) (cache : AccessoryPath → Option Img) :
    AccessoryRef → ResolveOut
  | AccessoryRef.array img => ⟨Except.ok (ensureAlpha img), cache, 0⟩
  | AccessoryRef.pathRef p =>
    match cache p with
    | some img => ⟨Except.ok img, cache, 0⟩
    | none =>
      if st.fileExists p then
        match st.decode p with
        | some img => ⟨Except.ok (ensureAlpha img), cache, 1⟩
        | none => ⟨Except.error (), cache, 1⟩
      else ⟨Except.ok (ensureAlpha (createPlaceholderAccessory 100 100)), cache, 0⟩
  | AccessoryRef.imageRef img => ⟨Except.ok (ensureAlpha img), cache, 0⟩
  | AccessoryRef.malformed =>
      ⟨Except.ok (ensureAlpha (createPlaceholderAccessory 100 100)), cache, 0⟩

/-- The category enumeration of `AccessoryType`; unknown category strings are
mapped to `other` upstream of this model (lines 69-73). -/
inductive AccessoryType
  | clothing
  | jewelry
  | glasses
  | hats
  | watches
  | other

/-- The errors `apply_accessory` can surface: the two `ValueError`s of its
input validation (lines 63-67), or an exception propagating out of the
accessory resolver. -/
inductive FitError
  | avatarImageRequired
  | accessoryDataRequired
  | resolverRaised

/-- `apply_accessory` (lines 47-91): validate the two inputs, resolve the
accessory, then dispatch on the category.  The resolver and the per-category
handlers are taken as parameters so that the validation is established for
every behavior of the downstream stages (the handlers themselves are
embedded separately above). -/
def applyAccessory (resolver : AccessoryRef → Except Unit Img)
    (dispatch : AccessoryType → Img → Img → Option Landmarks → Img)
    (avatarImage : Option Img) (accessory : Option AccessoryRef)
    (category : AccessoryType) (lm : Option Landmarks) : Except FitError Img :=
  match avatarImage with
  | none => Except.error FitError.avatarImageRequired
  | some av =>
    match accessory with
    | none => Except.error FitError.accessoryDataRequired
    | some accRef =>
      match resolver accRef with
      | Except.error _ => Except.error FitError.resolverRaised
      | Except.ok accImg => Except.ok (dispatch category av accImg lm)

/-- A concrete 10 by 10 opaque base canvas used to instantiate the compositor
theorems. -/
def baseA : Img := ⟨10, 10, 4, fun _ _ _ => 50⟩

/-- A concrete 4 by 4 accessory bitmap (all-zero bytes). -/
def rzA : Img := ⟨4, 4, 4, fun _ _ _ => 0⟩

/-- A concrete 4 by 4 accessory bitmap whose alpha channel is 0 everywhere. -/
def rzZeroAlpha : Img := ⟨4, 4, 4, fun _ _ c => if c = 3 then 0 else 200⟩

/-- A concrete 4 by 4 accessory bitmap whose alpha channel is 255
everywhere. -/
def rzFullAlpha : Img := ⟨4, 4, 4, fun _ _ c => if c = 3 then 255 else 200⟩

/-- A pose feature dictionary with every feature missing. -/
def emptyPoseFeatures : PoseFeatures := ⟨none, none, none, none, none, none, none⟩

/-- A face feature dictionary with every feature missing. -/
def emptyFaceFeatures : FaceFeatures := ⟨none, none, []⟩

/-- A landmark dictionary that is present but misses every sub-feature. -/
def emptyLandmarks : Option Landmarks :=
  some ⟨some ⟨emptyFaceFeatures⟩, some ⟨emptyPoseFeatures⟩⟩

/-- A landmark dictionary whose only pose feature is a left wrist with
visibility 0.25 (below the 0.5 threshold of the watch rule). -/
def lowVisibilityLandmarks : Option Landmarks :=
  some ⟨none, some ⟨⟨none, none, none, none, some ⟨5, 5, 1/4⟩, none, none⟩⟩⟩

/-- Shoulders at (100, 100) and (300, 100), hips at (100, 300) and
(300, 300): the concrete pose refuting the spec's clothing-height formula. -/
def torsoFeatures : PoseFeatures :=
  ⟨some ⟨100, 100, 1⟩, some ⟨300, 100, 1⟩, some ⟨100, 300, 1⟩, some ⟨300, 300, 1⟩,
   none, none, none⟩

/-- Shoulders at (100, 200) and (300, 200) (level), no hips. -/
def levelShoulderFeatures : PoseFeatures :=
  ⟨some ⟨100, 200, 1⟩, some ⟨300, 200, 1⟩, none, none, none, none, none⟩

/-- Shoulders at (100, 180) and (300, 220), no hips. -/
def tiltedShoulderFeatures : PoseFeatures :=
  ⟨some ⟨100, 180, 1⟩, some ⟨300, 220, 1⟩, none, none, none, none, none⟩

/-- Shoulders on a vertical line: delta x is zero. -/
def verticalShoulderFeatures : PoseFeatures :=
  ⟨some ⟨100, 100, 1⟩, some ⟨100, 300, 1⟩, none, none, none, none, none⟩

/-- A concrete decoded 2 by 2 RGBA bitmap. -/
def imgDecoded : Img := ⟨2, 2, 4, fun _ _ _ => 7⟩

/-- Storage where every path exists and decodes to `imgDecoded`. -/
def stGood : Storage := ⟨fun _ => true, fun _ => some imgDecoded⟩

/-- Storage where every path exists but no data can be decoded
(`cv2.imread` returns `None`). -/
def stBadDecode : Storage := ⟨fun _ => true, fun _ => none⟩

/-- Storage where no path exists. -/
def stMissing : Storage := ⟨fun _ => false, fun _ => none⟩

/-- The empty accessory cache of a fresh `VirtualFitter`. -/
def emptyCache : AccessoryPath → Option Img := fun _ => none

theorem blendChannel_zero_alpha (b a : ℕ) : blendChannel 0 b a = b := by
  simp [blendChannel]

theorem blendChannel_full_alpha (b a : ℕ) : blendChannel 255 b a = a := by
  have h : (1 - (255 : ℚ) / 255) * b + ((255 : ℚ) / 255) * a = a := by norm_num
  simp [blendChannel, h]

theorem ratTrunc_intCast (n : ℤ) : ratTrunc (n : ℚ) = n := by
  unfold ratTrunc
  split <;> simp

theorem ratTrunc_eval (q : ℚ) (n : ℤ) (h : q = (n : ℚ)) : ratTrunc q = n := by
  rw [h, ratTrunc_intCast]

theorem rawXOffset_five_four : rawXOffset 5 4 = 3 := by
  rw [rawXOffset, show ⌊(4 : ℚ) / 2⌋ = 2 from by norm_num]
  exact ratTrunc_eval _ _ (by norm_num)

theorem rawYOffset_five_four : rawYOffset 5 4 = 3 := by
  rw [rawYOffset, show ⌊(4 : ℚ) / 2⌋ = 2 from by norm_num]
  exact ratTrunc_eval _ _ (by norm_num)

theorem rawXOffset_zero_four : rawXOffset 0 4 = -2 := by
  rw [rawXOffset, show ⌊(4 : ℚ) / 2⌋ = 2 from by norm_num]
  exact ratTrunc_eval _ _ (by norm_num)

theorem rawYOffset_zero_four : rawYOffset 0 4 = -2 := by
  rw [rawYOffset, show ⌊(4 : ℚ) / 2⌋ = 2 from by norm_num]
  exact ratTrunc_eval _ _ (by norm_num)

theorem outOfBounds_five (resized : Img) (hw : resized.w = 4) (hh : resized.h = 4) :
    outOfBounds baseA resized 5 5 4 4 = false := by
  simp only [outOfBounds, rawXOffset_five_four, rawYOffset_five_four, hw, hh]
  simp only [baseA]
  decide

theorem xOffset_five (resized : Img) (hw : resized.w = 4) (hh : resized.h = 4) :
    xOffset baseA resized 5 5 4 4 = 3 := by
  rw [xOffset, outOfBounds_five resized hw hh]
  simp [rawXOffset_five_four]

theorem yOffset_five (resized : Img) (hw : resized.w = 4) (hh : resized.h = 4) :
    yOffset baseA resized 5 5 4 4 = 3 := by
  rw [yOffset, outOfBounds_five resized hw hh]
  simp [rawYOffset_five_four]

theorem inROI_five (resized : Img) (hw : resized.w = 4) (hh : resized.h = 4) :
    inROI baseA resized 5 5 4 4 3 3 = true := by
  simp only [inROI, roiWidth, roiHeight, xOffset_five resized hw hh,
             yOffset_five resized hw hh, hw, hh]
  simp only [baseA]
  decide

/-- C1: whenever the computed top-left offset would fall outside the base
image on either axis, `_place_accessory` clamps the offset on each axis
independently to `[0, base_dimension - accessory_dimension]`, pins it to 0
when the accessory is larger than the base on that axis, and the blended
region lies entirely within `[0, width) × [0, height)` of the base: pixels
at or beyond the base dimensions are never written. -/
theorem clamped_offsets_keep_blend_in_bounds
    (base resized : Img) (x y width height : ℚ)
    (hoob : outOfBounds base resized x y width height = true) :
    xOffset base resized x y width height
        = max 0 (min ((base.w : ℤ) - resized.w) (rawXOffset x width)) ∧
    yOffset base resized x y width height
        = max 0 (min ((base.h : ℤ) - resized.h) (rawYOffset y height)) ∧
    ((base.w : ℤ) < resized.w → xOffset base resized x y width height = 0) ∧
    ((base.h : ℤ) < resized.h → yOffset base resized x y width height = 0) ∧
    0 ≤ xOffset base resized x y width height ∧
    0 ≤ yOffset base resized x y width height ∧
    xOffset base resized x y width height + roiWidth base resized x y width height
        ≤ base.w ∧
    yOffset base resized x y width height + roiHeight base resized x y width height
        ≤ base.h ∧
    ∀ px py c : ℕ, base.w ≤ px ∨ base.h ≤ py →
      (placeAccessoryResized base resized x y width height).pix px py c
        = base.pix px py c := by
  have hx : xOffset base resized x y width height
      = max 0 (min ((base.w : ℤ) - resized.w) (rawXOffset x width)) := by
    simp [xOffset, hoob]
  have hy : yOffset base resized x y width height
      = max 0 (min ((base.h : ℤ) - resized.h) (rawYOffset y height)) := by
    simp [yOffset, hoob]
  have hx0 : 0 ≤ xOffset base resized x y width height := by rw [hx]; omega
  have hy0 : 0 ≤ yOffset base resized x y width height := by rw [hy]; omega
  have hxw : xOffset base resized x y width height
      + roiWidth base resized x y width height ≤ base.w := by
    rw [roiWidth]; omega
  have hyh : yOffset base resized x y width height
      + roiHeight base resized x y width height ≤ base.h := by
    rw [roiHeight]; omega
  refine ⟨hx, hy, ?_, ?_, hx0, hy0, hxw, hyh, ?_⟩
  · intro hbig; rw [hx]; omega
  · intro hbig; rw [hy]; omega
  · intro px py c hout
    simp only [placeAccessoryResized]
    split
    · rename_i hcond
      rw [Bool.and_eq_true] at hcond
      have hroi := hcond.1
      simp only [inROI, Bool.and_eq_true, decide_eq_true_eq] at hroi
      obtain ⟨⟨⟨h1, h2⟩, h3⟩, h4⟩ := hroi
      exfalso
      rcases hout with hw | hh
      · have hcast : (base.w : ℤ) ≤ (px : ℤ) := by exact_mod_cast hw
        omega
      · have hcast : (base.h : ℤ) ≤ (py : ℤ) := by exact_mod_cast hh
        omega
    · rfl

/-- Witness for C1: a 4 by 4 accessory centered at the origin of a 10 by 10
base computes a negative raw offset, triggering the clamp. -/
theorem clamped_offsets_witness :
    outOfBounds baseA rzA 0 0 4 4 = true ∧
    0 ≤ xOffset baseA rzA 0 0 4 4 ∧
    xOffset baseA rzA 0 0 4 4 + roiWidth baseA rzA 0 0 4 4 ≤ baseA.w ∧
    (placeAccessoryResized baseA rzA 0 0 4 4).pix 10 3 0 = baseA.pix 10 3 0 := by
  have hoob : outOfBounds baseA rzA 0 0 4 4 = true := by
    simp only [outOfBounds, rawXOffset_zero_four, rawYOffset_zero_four]
    simp only [baseA, rzA]
    decide
  have h := clamped_offsets_keep_blend_in_bounds baseA rzA 0 0 4 4 hoob
  exact ⟨hoob, h.2.2.2.2.1, h.2.2.2.2.2.2.1, h.2.2.2.2.2.2.2.2 10 3 0 (Or.inl (by norm_num [baseA]))⟩

/-- C2: blending an accessory whose alpha channel is 0 at every pixel leaves
every byte of the base unchanged, and blending one whose alpha channel is
255 at every pixel writes the accessory's RGB bytes verbatim at every pixel
of the blended region (`a = accessory_alpha / 255` specializes the blend
`(1 - a) * base + a * accessory` to `base` resp. `accessory`). -/
theorem alpha_extreme_blends (base resized : Img) (x y width height : ℚ) :
    ((∀ px py, resized.pix px py 3 = 0) →
      ∀ px py c, (placeAccessoryResized base resized x y width height).pix px py c
        = base.pix px py c) ∧
    ((∀ px py, resized.pix px py 3 = 255) →
      ∀ px py c, c < 3 → inROI base resized x y width height px py = true →
        (placeAccessoryResized base resized x y width height).pix px py c
          = resized.pix ((px : ℤ) - xOffset base resized x y width height).toNat
              ((py : ℤ) - yOffset base resized x y width height).toNat c) := by
  constructor
  · intro hA px py c
    simp only [placeAccessoryResized]
    split
    · rw [hA, blendChannel_zero_alpha]
    · rfl
  · intro hA px py c hc hroi
    simp only [placeAccessoryResized, hroi, Bool.true_and]
    rw [if_pos (decide_eq_true hc)]
    rw [hA, blendChannel_full_alpha]

/-- Witness for C2: on the 10 by 10 base, a 4 by 4 accessory placed at
(5, 5): with all-zero alpha a pixel keeps its base byte; with all-255 alpha
the in-region pixel (3, 3) receives the accessory byte at region position
(0, 0). -/
theorem alpha_extreme_blends_witness :
    (placeAccessoryResized baseA rzZeroAlpha 5 5 4 4).pix 3 3 0 = baseA.pix 3 3 0 ∧
    (placeAccessoryResized baseA rzFullAlpha 5 5 4 4).pix 3 3 0
      = rzFullAlpha.pix ((3 : ℤ) - xOffset baseA rzFullAlpha 5 5 4 4).toNat
          ((3 : ℤ) - yOffset baseA rzFullAlpha 5 5 4 4).toNat 0 := by
  constructor
  · exact (alpha_extreme_blends baseA rzZeroAlpha 5 5 4 4).1 (fun _ _ => rfl) 3 3 0
  · exact (alpha_extreme_blends baseA rzFullAlpha 5 5 4 4).2 (fun _ _ => rfl) 3 3 0
      (by norm_num) (inROI_five rzFullAlpha rfl rfl)

/-- C9: the compositor builds its output from a copy of the base: the output
has the base's dimensions and channel count, the base's alpha channel is
carried over unchanged at every pixel (only channels 0-2 are blended), and
every pixel outside the blended region keeps all its base bytes.  In the
embedding the compositor is a pure function of its two input bitmaps, which
is the observable content of "returns a new image and mutates neither
input" (the source copies the base at line 626 and writes only to the
copy). -/
theorem compositor_preserves_base_alpha (base resized : Img) (x y width height : ℚ) :
    (placeAccessoryResized base resized x y width height).w = base.w ∧
    (placeAccessoryResized base resized x y width height).h = base.h ∧
    (placeAccessoryResized base resized x y width height).channels = base.channels ∧
    (∀ px py, (placeAccessoryResized base resized x y width height).pix px py 3
      = base.pix px py 3) ∧
    ∀ px py c, inROI base resized x y width height px py = false →
      (placeAccessoryResized base resized x y width height).pix px py c
        = base.pix px py c := by
  refine ⟨rfl, rfl, rfl, ?_, ?_⟩
  · intro px py
    simp [placeAccessoryResized]
  · intro px py c h
    simp [placeAccessoryResized, h]

/-- Witness for C9: the alpha byte at the in-region pixel (3, 3) is the
base's, and the out-of-region pixel (9, 9) keeps its base byte. -/
theorem compositor_preserves_base_alpha_witness :
    (placeAccessoryResized baseA rzFullAlpha 5 5 4 4).pix 3 3 3 = baseA.pix 3 3 3 ∧
    (placeAccessoryResized baseA rzFullAlpha 5 5 4 4).pix 9 9 0 = baseA.pix 9 9 0 := by
  constructor
  · exact (compositor_preserves_base_alpha baseA rzFullAlpha 5 5 4 4).2.2.2.1 3 3
  · refine (compositor_preserves_base_alpha baseA rzFullAlpha 5 5 4 4).2.2.2.2 9 9 0 ?_
    simp only [inROI, roiWidth, roiHeight, xOffset_five rzFullAlpha rfl rfl,
               yOffset_five rzFullAlpha rfl rfl]
    simp only [baseA, rzFullAlpha]
    decide

/-- Counterexample for C4: with shoulders at y = 100, hips at y = 300 on a
500 by 400 image, the code computes height
`max((hip_center_y - refined_center_y) * 2, 0.3 * h) = max(200, 120) = 200`,
not the claimed `max(2 * (hip_center_y - shoulder_center_y), 0.3 * h) =
max(400, 120) = 400`: the `center_y` of line 371 has already been refined to
the torso midpoint at line 359. -/
theorem clothing_height_spec_counterexample :
    Option.map Placement.height (getClothingPlacement 500 400 torsoFeatures) = some 200 ∧
    Option.map Placement.height (getClothingPlacement 500 400 torsoFeatures)
      ≠ some (max (2 * ((300 : ℚ) - 100)) ((400 : ℚ) * (3/10))) := by
  have hval : Option.map Placement.height (getClothingPlacement 500 400 torsoFeatures)
      = some 200 := by
    simp only [getClothingPlacement, torsoFeatures, Option.map]
    norm_num
  refine ⟨hval, ?_⟩
  rw [hval]
  have : max (2 * ((300 : ℚ) - 100)) ((400 : ℚ) * (3/10)) = 400 := by
    rw [max_eq_left] <;> norm_num
  rw [this]
  simp

/-- C4 amended: with both shoulders and both hips present, the clothing
placement height is `max(hip_center_y - shoulder_center_y, 30% of image
height)` (the code doubles the distance from the already-refined torso
midpoint, which halves the spec's factor); with hips absent and shoulders
present, the height is exactly 50% of the image height. -/
theorem clothing_height_formula (w h : ℕ) (ls rs lh rh : LmPoint)
    (wl wr nk : Option LmPoint) :
    Option.map Placement.height (getClothingPlacement w h
        ⟨some ls, some rs, some lh, some rh, wl, wr, nk⟩)
      = some (max ((lh.y + rh.y) / 2 - (ls.y + rs.y) / 2) ((h : ℚ) * (3/10))) ∧
    Option.map Placement.height (getClothingPlacement w h
        ⟨some ls, some rs, none, none, wl, wr, nk⟩)
      = some ((h : ℚ) * (5/10)) := by
  constructor
  · simp only [getClothingPlacement, Option.map]
    have : ((lh.y + rh.y) / 2 - ((ls.y + rs.y) / 2 + (lh.y + rh.y) / 2) / 2) * 2
        = (lh.y + rh.y) / 2 - (ls.y + rs.y) / 2 := by ring
    rw [this]
  · simp only [getClothingPlacement, Option.map]

/-- C8: the clothing rotation is 0 degrees when the shoulder line is
vertical in x (delta x = 0) and `arctan(dy/dx)` converted to degrees
otherwise; level shoulders at (100, 200) and (300, 200) give rotation 0 and
center x 200, and shoulders at (100, 180) and (300, 220) give rotation
`arctan(40/200)` in degrees (approximately 11.31). -/
theorem clothing_rotation_formula (w h : ℕ) (ls rs : LmPoint)
    (hl hr wl wr nk : Option LmPoint) :
    ((rs.x - ls.x = 0 →
        Option.map Placement.rotation (getClothingPlacement w h
          ⟨some ls, some rs, hl, hr, wl, wr, nk⟩) = some 0) ∧
     (rs.x - ls.x ≠ 0 →
        Option.map Placement.rotation (getClothingPlacement w h
          ⟨some ls, some rs, hl, hr, wl, wr, nk⟩)
          = some (Real.arctan (((rs.y - ls.y) / (rs.x - ls.x) : ℚ) : ℝ)
              * 180 / Real.pi))) ∧
    (Option.map Placement.rotation (getClothingPlacement 400 400 levelShoulderFeatures)
        = some 0 ∧
     Option.map Placement.x (getClothingPlacement 400 400 levelShoulderFeatures)
        = some 200) ∧
    Option.map Placement.rotation (getClothingPlacement 400 400 tiltedShoulderFeatures)
      = some (Real.arctan (40 / 200) * 180 / Real.pi) := by
  have hrot : ∀ (w h : ℕ) (ls rs : LmPoint) (hl hr wl wr nk : Option LmPoint),
      Option.map Placement.rotation (getClothingPlacement w h
        ⟨some ls, some rs, hl, hr, wl, wr, nk⟩)
        = some (degreesOfArctanSlope (rs.y - ls.y) (rs.x - ls.x)) := by
    intro w h ls rs hl hr wl wr nk
    cases hl <;> cases hr <;> simp [getClothingPlacement]
  refine ⟨⟨?_, ?_⟩, ⟨?_, ?_⟩, ?_⟩
  · intro hdx
    rw [hrot w h ls rs hl hr wl wr nk]
    simp [degreesOfArctanSlope, hdx]
  · intro hdx
    rw [hrot w h ls rs hl hr wl wr nk]
    simp only [degreesOfArctanSlope, if_neg hdx]
    rw [Rat.cast_div]
  · rw [show levelShoulderFeatures
        = ⟨some ⟨100, 200, 1⟩, some ⟨300, 200, 1⟩, none, none, none, none, none⟩ from rfl,
       hrot 400 400 ⟨100, 200, 1⟩ ⟨300, 200, 1⟩ none none none none none]
    simp [degreesOfArctanSlope]
  · simp only [getClothingPlacement, levelShoulderFeatures, Option.map]
    norm_num
  · rw [show tiltedShoulderFeatures
        = ⟨some ⟨100, 180, 1⟩, some ⟨300, 220, 1⟩, none, none, none, none, none⟩ from rfl,
       hrot 400 400 ⟨100, 180, 1⟩ ⟨300, 220, 1⟩ none none none none none]
    simp only [degreesOfArctanSlope]
    norm_num

/-- Witness for C8: both branches of the rotation formula are inhabited:
vertical shoulders (delta x = 0) give rotation 0, and the tilted scenario's
shoulders give the arctan form. -/
theorem clothing_rotation_formula_witness :
    Option.map Placement.rotation (getClothingPlacement 400 400
        ⟨some ⟨100, 100, 1⟩, some ⟨100, 300, 1⟩, none, none, none, none, none⟩)
      = some 0 ∧
    Option.map Placement.rotation (getClothingPlacement 400 400
        ⟨some ⟨100, 180, 1⟩, some ⟨300, 220, 1⟩, none, none, none, none, none⟩)
      = some (Real.arctan ((((220 : ℚ) - 180) / ((300 : ℚ) - 100) : ℚ) : ℝ)
          * 180 / Real.pi) :=
  ⟨(clothing_rotation_formula 400 400 ⟨100, 100, 1⟩ ⟨100, 300, 1⟩
      none none none none none).1.1 (by norm_num),
   (clothing_rotation_formula 400 400 ⟨100, 180, 1⟩ ⟨300, 220, 1⟩
      none none none none none).1.2 (by norm_num)⟩

theorem watch_default_of_missing (w h : ℕ) (lm : Option Landmarks)
    (hm : watchLandmarksMissing lm = true) :
    applyWatchPlacement w h lm = getDefaultPlacement w h PositionType.wrist := by
  rcases lm with _ | l
  · rfl
  rcases hpose : l.pose with _ | pd
  · simp [applyWatchPlacement, hpose]
  simp only [watchLandmarksMissing, hpose] at hm
  rcases hwr : pd.features.wristLeft with _ | lw
  · simp [applyWatchPlacement, getWatchPlacement, hpose, hwr]
  · rw [hwr] at hm
    simp only [decide_eq_true_eq] at hm
    simp only [applyWatchPlacement, hpose, getWatchPlacement, hwr]
    rw [if_neg (not_lt.mpr hm)]

theorem clothing_default_of_missing (w h : ℕ) (lm : Option Landmarks)
    (hm : clothingLandmarksMissing lm = true) :
    applyClothingPlacement w h lm = getDefaultPlacement w h PositionType.torso := by
  rcases lm with _ | l
  · rfl
  rcases hpose : l.pose with _ | pd
  · simp [applyClothingPlacement, hpose]
  simp only [clothingLandmarksMissing, hpose] at hm
  rcases hsl : pd.features.shoulderLeft with _ | ls <;>
    rcases hsr : pd.features.shoulderRight with _ | rs <;>
    rw [hsl, hsr] at hm <;>
    simp [applyClothingPlacement, getClothingPlacement, hpose, hsl, hsr] at hm ⊢

theorem jewelry_default_of_missing (w h : ℕ) (lm : Option Landmarks)
    (hm : jewelryLandmarksMissing lm = true) :
    applyJewelryPlacement w h lm = getDefaultPlacement w h PositionType.neck := by
  rcases lm with _ | l
  · rfl
  rcases hpose : l.pose with _ | pd
  · simp [applyJewelryPlacement, hpose]
  simp only [jewelryLandmarksMissing, hpose] at hm
  rcases hnk : pd.features.neck with _ | nk
  · rw [hnk] at hm
    rcases hsl : pd.features.shoulderLeft with _ | ls <;>
      rcases hsr : pd.features.shoulderRight with _ | rs <;>
      rw [hsl, hsr] at hm <;>
      simp [applyJewelryPlacement, getJewelryPlacement, hpose, hnk, hsl, hsr] at hm ⊢
  · rw [hnk] at hm
    simp at hm

theorem glasses_default_of_missing (w h : ℕ) (lm : Option Landmarks)
    (hm : glassesLandmarksMissing lm = true) :
    applyGlassesPlacement w h lm = getDefaultPlacement w h PositionType.face := by
  rcases lm with _ | l
  · rfl
  rcases hface : l.face with _ | fd
  · simp [applyGlassesPlacement, hface]
  simp only [glassesLandmarksMissing, hface] at hm
  rcases hle : fd.features.leftEyeCenter with _ | lc <;>
    rcases hre : fd.features.rightEyeCenter with _ | rc <;>
    rw [hle, hre] at hm <;>
    simp [applyGlassesPlacement, getGlassesPlacement, hface, hle, hre] at hm ⊢

theorem hat_default_of_missing (w h : ℕ) (lm : Option Landmarks)
    (hm : hatLandmarksMissing lm = true) :
    applyHatPlacement w h lm = getDefaultPlacement w h PositionType.head := by
  rcases lm with _ | l
  · rfl
  rcases hface : l.face with _ | fd
  · simp [applyHatPlacement, hface]
  simp only [hatLandmarksMissing, hface] at hm
  rcases hov : fd.features.faceOval with _ | ⟨p, ps⟩
  · simp [applyHatPlacement, getHatPlacement, hface, hov, scanFaceOval]
  · rw [hov] at hm
    simp at hm

/-- C5: for every landmark set missing the sub-features its category
requires, the placement pipeline returns exactly the documented
default-fallback values of that category's placement surface: head x = w/2,
y = 15% h, w = 50% w, h = 20% h; face x = w/2, y = 25% h, w = 40% w,
h = 10% h; neck x = w/2, y = 35% h, w = 30% w, h = 10% h; torso x = w/2,
y = 50% h, w = 70% w, h = 40% h; wrist x = 70% w, y = 60% h, w = h = 15%
of width; center x = w/2, y = h/2, w = 50% w, h = 30% h; rotation 0 in
every case. -/
theorem default_placement_values (w h : ℕ) (lm : Option Landmarks) :
    (hatLandmarksMissing lm = true →
      applyHatPlacement w h lm
        = { x := ((w / 2 : ℕ) : ℚ), y := (h : ℚ) * (15/100), width := (w : ℚ) * (5/10),
            height := (h : ℚ) * (2/10), rotation := 0 }) ∧
    (glassesLandmarksMissing lm = true →
      applyGlassesPlacement w h lm
        = { x := ((w / 2 : ℕ) : ℚ), y := (h : ℚ) * (25/100), width := (w : ℚ) * (4/10),
            height := (h : ℚ) * (1/10), rotation := 0 }) ∧
    (jewelryLandmarksMissing lm = true →
      applyJewelryPlacement w h lm
        = { x := ((w / 2 : ℕ) : ℚ), y := (h : ℚ) * (35/100), width := (w : ℚ) * (3/10),
            height := (h : ℚ) * (1/10), rotation := 0 }) ∧
    (clothingLandmarksMissing lm = true →
      applyClothingPlacement w h lm
        = { x := ((w / 2 : ℕ) : ℚ), y := (h : ℚ) * (5/10), width := (w : ℚ) * (7/10),
            height := (h : ℚ) * (4/10), rotation := 0 }) ∧
    (watchLandmarksMissing lm = true →
      applyWatchPlacement w h lm
        = { x := (w : ℚ) * (7/10), y := (h : ℚ) * (6/10), width := (w : ℚ) * (15/100),
            height := (w : ℚ) * (15/100), rotation := 0 }) ∧
    applyGenericPlacement w h
      = { x := ((w / 2 : ℕ) : ℚ), y := ((h / 2 : ℕ) : ℚ), width := (w : ℚ) * (5/10),
          height := (h : ℚ) * (3/10), rotation := 0 } := by
  refine ⟨?_, ?_, ?_, ?_, ?_, rfl⟩
  · intro hm
    rw [hat_default_of_missing w h lm hm]
    rfl
  · intro hm
    rw [glasses_default_of_missing w h lm hm]
    rfl
  · intro hm
    rw [jewelry_default_of_missing w h lm hm]
    rfl
  · intro hm
    rw [clothing_default_of_missing w h lm hm]
    rfl
  · intro hm
    rw [watch_default_of_missing w h lm hm]
    rfl

/-- Witness for C5: the landmark set that is present but misses every
sub-feature satisfies each category's missing-feature condition and
receives the documented default values on a 100 by 200 image. -/
theorem default_placement_values_witness :
    applyHatPlacement 100 200 emptyLandmarks
      = { x := ((100 / 2 : ℕ) : ℚ), y := (200 : ℚ) * (15/100),
          width := (100 : ℚ) * (5/10), height := (200 : ℚ) * (2/10), rotation := 0 } ∧
    applyGlassesPlacement 100 200 emptyLandmarks
      = { x := ((100 / 2 : ℕ) : ℚ), y := (200 : ℚ) * (25/100),
          width := (100 : ℚ) * (4/10), height := (200 : ℚ) * (1/10), rotation := 0 } ∧
    applyJewelryPlacement 100 200 emptyLandmarks
      = { x := ((100 / 2 : ℕ) : ℚ), y := (200 : ℚ) * (35/100),
          width := (100 : ℚ) * (3/10), height := (200 : ℚ) * (1/10), rotation := 0 } ∧
    applyClothingPlacement 100 200 emptyLandmarks
      = { x := ((100 / 2 : ℕ) : ℚ), y := (200 : ℚ) * (5/10),
          width := (100 : ℚ) * (7/10), height := (200 : ℚ) * (4/10), rotation := 0 } ∧
    applyWatchPlacement 100 200 emptyLandmarks
      = { x := (100 : ℚ) * (7/10), y := (200 : ℚ) * (6/10),
          width := (100 : ℚ) * (15/100), height := (100 : ℚ) * (15/100), rotation := 0 } ∧
    applyGenericPlacement 100 200
      = { x := ((100 / 2 : ℕ) : ℚ), y := ((200 / 2 : ℕ) : ℚ),
          width := (100 : ℚ) * (5/10), height := (200 : ℚ) * (3/10), rotation := 0 } :=
  ⟨(default_placement_values 100 200 emptyLandmarks).1 rfl,
   (default_placement_values 100 200 emptyLandmarks).2.1 rfl,
   (default_placement_values 100 200 emptyLandmarks).2.2.1 rfl,
   (default_placement_values 100 200 emptyLandmarks).2.2.2.1 rfl,
   (default_placement_values 100 200 emptyLandmarks).2.2.2.2.1 rfl,
   (default_placement_values 100 200 emptyLandmarks).2.2.2.2.2⟩

/-- C6: whenever a landmark required by a category's placement rule is
missing — the whole landmark dictionary, the pose or face entry, the
specific feature, or (for watches) a left wrist whose visibility is not
above 0.5 — the placement pipeline deterministically selects the
default-fallback placement of that category's surface.  The pipelines are
total functions of their inputs: no input raises. -/
theorem missing_landmarks_select_default (w h : ℕ) (lm : Option Landmarks) :
    (watchLandmarksMissing lm = true →
      applyWatchPlacement w h lm = getDefaultPlacement w h PositionType.wrist) ∧
    (clothingLandmarksMissing lm = true →
      applyClothingPlacement w h lm = getDefaultPlacement w h PositionType.torso) ∧
    (jewelryLandmarksMissing lm = true →
      applyJewelryPlacement w h lm = getDefaultPlacement w h PositionType.neck) ∧
    (glassesLandmarksMissing lm = true →
      applyGlassesPlacement w h lm = getDefaultPlacement w h PositionType.face) ∧
    (hatLandmarksMissing lm = true →
      applyHatPlacement w h lm = getDefaultPlacement w h PositionType.head) := by
  refine ⟨?_, ?_, ?_, ?_, ?_⟩
  · intro hm
    rcases lm with _ | l
    · rfl
    rcases hpose : l.pose with _ | pd
    · simp [applyWatchPlacement, hpose]
    simp only [watchLandmarksMissing, hpose] at hm
    rcases hwr : pd.features.wristLeft with _ | lw
    · simp [applyWatchPlacement, getWatchPlacement, hpose, hwr]
    · rw [hwr] at hm
      simp only [decide_eq_true_eq] at hm
      simp only [applyWatchPlacement, hpose, getWatchPlacement, hwr]
      rw [if_neg (not_lt.mpr hm)]
  · intro hm
    rcases lm with _ | l
    · rfl
    rcases hpose : l.pose with _ | pd
    · simp [applyClothingPlacement, hpose]
    simp only [clothingLandmarksMissing, hpose] at hm
    rcases hsl : pd.features.shoulderLeft with _ | ls <;>
      rcases hsr : pd.features.shoulderRight with _ | rs <;>
      rw [hsl, hsr] at hm <;>
      simp [applyClothingPlacement, getClothingPlacement, hpose, hsl, hsr] at hm ⊢
  · intro hm
    rcases lm with _ | l
    · rfl
    rcases hpose : l.pose with _ | pd
    · simp [applyJewelryPlacement, hpose]
    simp only [jewelryLandmarksMissing, hpose] at hm
    rcases hnk : pd.features.neck with _ | nk
    · rw [hnk] at hm
      rcases hsl : pd.features.shoulderLeft with _ | ls <;>
        rcases hsr : pd.features.shoulderRight with _ | rs <;>
        rw [hsl, hsr] at hm <;>
        simp [applyJewelryPlacement, getJewelryPlacement, hpose, hnk, hsl, hsr] at hm ⊢
    · rw [hnk] at hm
      simp at hm
  · intro hm
    rcases lm with _ | l
    · rfl
    rcases hface : l.face with _ | fd
    · simp [applyGlassesPlacement, hface]
    simp only [glassesLandmarksMissing, hface] at hm
    rcases hle : fd.features.leftEyeCenter with _ | lc <;>
      rcases hre : fd.features.rightEyeCenter with _ | rc <;>
      rw [hle, hre] at hm <;>
      simp [applyGlassesPlacement, getGlassesPlacement, hface, hle, hre] at hm ⊢
  · intro hm
    rcases lm with _ | l
    · rfl
    rcases hface : l.face with _ | fd
    · simp [applyHatPlacement, hface]
    simp only [hatLandmarksMissing, hface] at hm
    rcases hov : fd.features.faceOval with _ | ⟨p, ps⟩
    · simp [applyHatPlacement, getHatPlacement, hface, hov, scanFaceOval]
    · rw [hov] at hm
      simp at hm

/-- Witness for C6: concrete missing-landmark inputs (absent dictionary and
a low-visibility left wrist) select the documented defaults. -/
theorem missing_landmarks_select_default_witness :
    applyWatchPlacement 100 200 none = getDefaultPlacement 100 200 PositionType.wrist ∧
    applyWatchPlacement 100 200 lowVisibilityLandmarks
      = getDefaultPlacement 100 200 PositionType.wrist ∧
    applyClothingPlacement 100 200 none = getDefaultPlacement 100 200 PositionType.torso ∧
    applyJewelryPlacement 100 200 none = getDefaultPlacement 100 200 PositionType.neck ∧
    applyGlassesPlacement 100 200 none = getDefaultPlacement 100 200 PositionType.face ∧
    applyHatPlacement 100 200 none = getDefaultPlacement 100 200 PositionType.head :=
  ⟨(missing_landmarks_select_default 100 200 none).1 rfl,
   (missing_landmarks_select_default 100 200 lowVisibilityLandmarks).1
     (by norm_num [watchLandmarksMissing, lowVisibilityLandmarks]),
   (missing_landmarks_select_default 100 200 none).2.1 rfl,
   (missing_landmarks_select_default 100 200 none).2.2.1 rfl,
   (missing_landmarks_select_default 100 200 none).2.2.2.1 rfl,
   (missing_landmarks_select_default 100 200 none).2.2.2.2 rfl⟩

/-- Evidence for C3 (a defect in the code): `_get_accessory_image` consults
`self.accessory_cache` but no statement in the source ever writes to it.
Resolving the same existing, decodable path twice from a fresh empty cache
performs one `cv2.imread` decode per call (two in total, where the claim
and the cache's evident purpose demand exactly one), the cache is still
empty after the first call, and only the determinism of storage makes the
two returned bitmaps identical. -/
theorem resolver_cache_never_populated :
    (getAccessoryImage stGood emptyCache (AccessoryRef.pathRef 0)).decodes = 1 ∧
    (getAccessoryImage stGood emptyCache (AccessoryRef.pathRef 0)).cacheAfter
      = emptyCache ∧
    (getAccessoryImage stGood
        ((getAccessoryImage stGood emptyCache (AccessoryRef.pathRef 0)).cacheAfter)
        (AccessoryRef.pathRef 0)).decodes = 1 ∧
    (getAccessoryImage stGood emptyCache (AccessoryRef.pathRef 0)).result
      = (getAccessoryImage stGood
          ((getAccessoryImage stGood emptyCache (AccessoryRef.pathRef 0)).cacheAfter)
          (AccessoryRef.pathRef 0)).result :=
  ⟨rfl, rfl, rfl, rfl⟩

/-- Counterexample for C7: for a path that exists but whose data cannot be
decoded (`cv2.imread` returns `None`), the resolver does not return the
placeholder — line 128 dereferences `None.shape` and raises, failing the
call. -/
theorem resolver_decode_failure_raises :
    (getAccessoryImage stBadDecode emptyCache (AccessoryRef.pathRef 0)).result
      = Except.error () ∧
    (getAccessoryImage stBadDecode emptyCache (AccessoryRef.pathRef 0)).result
      ≠ Except.ok (createPlaceholderAccessory 100 100) := by
  refine ⟨rfl, ?_⟩
  rw [show (getAccessoryImage stBadDecode emptyCache (AccessoryRef.pathRef 0)).result
      = Except.error () from rfl]
  simp

/-- C7 amended: an unresolvable accessory path that does not exist on
storage (and an uncached lookup of it) yields the deterministic 100 by 100
placeholder — the semi-transparent magenta rectangle with a white border
built by `_create_placeholder_accessory` — with no decode attempted and no
failure; but a path that exists with undecodable data raises instead of
yielding the placeholder. -/
theorem missing_path_yields_placeholder (st : Storage)
    (cache : AccessoryPath → Option Img) (p : AccessoryPath)
    (hc : cache p = none) (he : st.fileExists p = false) :
    (getAccessoryImage st cache (AccessoryRef.pathRef p)).result
      = Except.ok (createPlaceholderAccessory 100 100) ∧
    (getAccessoryImage st cache (AccessoryRef.pathRef p)).decodes = 0 ∧
    (getAccessoryImage st cache (AccessoryRef.pathRef p)).cacheAfter = cache ∧
    (createPlaceholderAccessory 100 100).w = 100 ∧
    (createPlaceholderAccessory 100 100).h = 100 := by
  simp only [getAccessoryImage, hc, he]
  exact ⟨rfl, rfl, rfl, rfl, rfl⟩

/-- Witness for C7: a fresh cache and a storage with no files send a path
reference to the placeholder. -/
theorem missing_path_yields_placeholder_witness :
    emptyCache 0 = none ∧ stMissing.fileExists 0 = false ∧
    (getAccessoryImage stMissing emptyCache (AccessoryRef.pathRef 0)).result
      = Except.ok (createPlaceholderAccessory 100 100) :=
  ⟨rfl, rfl, (missing_path_yields_placeholder stMissing emptyCache 0 rfl rfl).1⟩

/-- C10: `apply_accessory` raises `ValueError` when `avatar_image` is `None`
and when `accessory` is `None`, before anything else runs: the result is
the validation error for every possible behavior of the accessory resolver
and of the per-category handlers, so no resolution (hence no placeholder)
and no placement or compositing is attempted for a `None` argument. -/
theorem apply_accessory_validates_inputs
    (resolver : AccessoryRef → Except Unit Img)
    (dispatch : AccessoryType → Img → Img → Option Landmarks → Img)
    (category : AccessoryType) (lm : Option Landmarks) :
    (∀ accessory, applyAccessory resolver dispatch none accessory category lm
      = Except.error FitError.avatarImageRequired) ∧
    (∀ av, applyAccessory resolver dispatch (some av) none category lm
      = Except.error FitError.accessoryDataRequired) :=
  ⟨fun _ => rfl, fun _ => rfl⟩

end VirtualFitting
